import Mathlib

/-!
# Verification of the type/hierarchy utilities in libredex/DexUtil.cpp

Shallow embedding of the functions in `DexUtil.cpp`.  Type descriptors are
C strings; we model a descriptor (and hence an interned `DexType*` handle,
since `DexType::make_type` canonicalises by descriptor string) as a
`List Char`.  Pointer equality of interned handles corresponds to equality
of the descriptor lists.  Functions that reach `not_reached()` are modelled
as returning `none`.
-/

set_option autoImplicit false

namespace DexUtil

/-- A type descriptor / interned type handle, modelled as the character
list of the descriptor string (`DexType::make_type` interns by string, so
handle equality is descriptor-string equality). -/
abbrev CStr := List Char

/-- `name[0]` of a C string: the first character, or `'\0'` for the empty
string (the NUL terminator). -/
def headChar (s : CStr) : Char :=
  match s with
  | [] => Char.ofNat 0
  | c :: _ => c

/-- The switch of `is_primitive` on `name[0]`: `Z B S C I J F D` are
primitive, `L [ V` are not, anything else falls through to
`not_reached()` (modelled as `none`). -/
def primSwitch (c : Char) : Option Bool :=
  if c = 'Z' ∨ c = 'B' ∨ c = 'S' ∨ c = 'C' ∨ c = 'I' ∨ c = 'J' ∨ c = 'F' ∨ c = 'D' then
    some true
  else if c = 'L' ∨ c = '[' ∨ c = 'V' then
    some false
  else
    none

/-- `bool is_primitive(DexType*)` from DexUtil.cpp: switch on the leading
character of the descriptor. -/
def is_primitive (d : CStr) : Option Bool :=
  primSwitch (headChar d)

/-- The `DataType` enumeration used by `type_to_datatype`. -/
inductive DataType where
  | Void | Boolean | Byte | Short | Char | Int | Long | Float | Double | Object | Array
  deriving DecidableEq

/-- The switch of `type_to_datatype` on `name[0]`; unrecognized characters
fall through to `not_reached()` (modelled as `none`). -/
def datatypeSwitch (c : Char) : Option DataType :=
  if c = 'V' then some .Void
  else if c = 'Z' then some .Boolean
  else if c = 'B' then some .Byte
  else if c = 'S' then some .Short
  else if c = 'C' then some .Char
  else if c = 'I' then some .Int
  else if c = 'J' then some .Long
  else if c = 'F' then some .Float
  else if c = 'D' then some .Double
  else if c = 'L' then some .Object
  else if c = '[' then some .Array
  else none

/-- `DataType type_to_datatype(const DexType*)` from DexUtil.cpp. -/
def type_to_datatype (d : CStr) : Option DataType :=
  datatypeSwitch (headChar d)

/-- `bool is_array(const DexType*)`: the descriptor starts with `'['`. -/
def is_array (d : CStr) : Bool :=
  headChar d = '['

/-- The loop of `get_array_level`: count the leading `'['` markers. -/
def arrayLevelAux : CStr → Nat
  | [] => 0
  | c :: rest => if c = '[' then arrayLevelAux rest + 1 else 0

/-- `uint32_t get_array_level(const DexType*)` from DexUtil.cpp: the number
of leading `'['` characters of the descriptor. -/
def get_array_level (d : CStr) : Nat :=
  arrayLevelAux d

/-- `DexType* get_array_type(const DexType*)` from DexUtil.cpp: `nullptr`
(`none`) for a non-array; otherwise strip every leading `'['` and
re-intern the remaining descriptor. -/
def get_array_type (d : CStr) : Option CStr :=
  if is_array d then some (d.dropWhile (fun c => c = '[')) else none

/-! ## Classes, the footprint estimator and the scope manager -/

/-- Modelled from the spec: the interface bit of the Dex access flags
(`DEX_ACCESS_INTERFACE`, declared in DexClass.h, which is not among the
shown sources); its concrete value is the standard Dex `ACC_INTERFACE`
bit `0x200`.  Only "the bit is set / clear" matters below. -/
def DEX_ACCESS_INTERFACE : Nat := 0x200

/-- A loaded class (`DexClass`).  `DexUtil.cpp` touches only: the class's
own type handle, the optional superclass handle (`nullptr` = `none`), the
interface list, the access flags, and the sizes of the method/field
collections (`get_dmethods().size()` etc.), so methods and fields are
carried as their counts. -/
structure DexClass where
  type : CStr
  superClass : Option CStr
  interfaces : List CStr
  access : Nat
  dmethods : Nat
  vmethods : Nat
  ifields : Nat
  deriving DecidableEq, Inhabited

/-- `compile_regexes()`: the fixed pattern list, in source order.  Each
regex (compiled with flags 0) is a literal suffix anchored with `$`, so a
pattern `(p, cost)` matches a descriptor exactly when `p` is a suffix of
it. -/
def compile_regexes : List (CStr × Int) :=
  [("Layout;".data, 1500), ("View;".data, 1500),
   ("ViewGroup;".data, 1800), ("Activity;".data, 1500)]

/-- `matches_penalty(string, penalty)`: scan the compiled patterns in
order; the first whose (suffix-anchored) regex matches supplies the
penalty.  `none` models the `false` return that leaves the caller's
penalty untouched. -/
def matches_penalty (s : CStr) : Option Int :=
  (compile_regexes.find? (fun p => p.1.isSuffixOf s)).map (fun p => p.2)

def kObjectVtable : Int := 48
def kMethodSize : Int := 52
def kInstanceFieldSize : Int := 16
def kVtableSlotSize : Int := 4

/-- `int estimate_linear_alloc(DexClass*)` from DexUtil.cpp. -/
def estimate_linear_alloc (clazz : DexClass) : Int :=
  let lasize : Int := 0
  let lasize :=
    if clazz.access &&& DEX_ACCESS_INTERFACE = 0 then
      let vtablePenalty : Int :=
        match matches_penalty clazz.type with
        | some pen => pen
        | none =>
          match clazz.superClass with
          | some sup =>
            match matches_penalty sup with
            | some pen => pen
            | none => kObjectVtable
          | none => kObjectVtable
      lasize + vtablePenalty + (clazz.vmethods : Int) * kVtableSlotSize
    else lasize
  lasize + (clazz.dmethods : Int) * kMethodSize + (clazz.vmethods : Int) * kMethodSize
    + (clazz.ifields : Int) * kInstanceFieldSize

/-- `Scope`: the flattened working set. -/
abbrev Scope := List DexClass

/-- `DexClassesVector`: the per-container partitions. -/
abbrev DexClassesVector := List (List DexClass)

/-- `Scope build_class_scope(const DexClassesVector&)`: flatten, partition
order first, within-partition order second. -/
def build_class_scope (dexen : DexClassesVector) : Scope :=
  dexen.flatten

/-- `void post_dexen_changes(const Scope&, DexClassesVector&)`: for each
partition, erase the classes not contained in the scope (membership by
handle identity, via the `unordered_set` `clookup`), keeping the rest in
order.  The trailing `if (debug)` block only asserts and changes
nothing. -/
def post_dexen_changes (v : Scope) (dexen : DexClassesVector) : DexClassesVector :=
  dexen.map (fun classes => classes.filter (fun cls => cls ∈ v))

/-! ## The hierarchy index (`type_to_class` / `class_hierarchy`) -/

/-- The two global maps of the hierarchy index, modelled as association
lists (`std::unordered_map`s; only lookup behaviour matters, so the entry
order is immaterial). -/
structure TypeSystem where
  type_to_class : List (CStr × DexClass)
  class_hierarchy : List (CStr × List CStr)
  deriving DecidableEq

def TypeSystem.empty : TypeSystem := ⟨[], []⟩

/-- `unordered_map::emplace`: insert `(k, v)` only when no entry with key
`k` exists; a duplicate insert attempt leaves the map unchanged. -/
def emplace (m : List (CStr × DexClass)) (k : CStr) (v : DexClass) :
    List (CStr × DexClass) :=
  if m.any (fun p => p.1 = k) then m else m ++ [(k, v)]

/-- `class_hierarchy[super].push_back(type)`: append `t` to the list at
key `k`, materialising an empty list first when the key is absent
(`operator[]` semantics). -/
def appendChild : List (CStr × List CStr) → CStr → CStr → List (CStr × List CStr)
  | [], k, t => [(k, [t])]
  | (k', l) :: rest, k, t =>
    if k' = k then (k', l ++ [t]) :: rest else (k', l) :: appendChild rest k t

/-- `void build_type_system(DexClass*)` from DexUtil.cpp: under the lock,
`type_to_class.emplace(type, cls)` and, when the superclass is non-null,
`class_hierarchy[super].push_back(type)`. -/
def build_type_system (cls : DexClass) (st : TypeSystem) : TypeSystem where
  type_to_class := emplace st.type_to_class cls.type cls
  class_hierarchy :=
    match cls.superClass with
    | some s => appendChild st.class_hierarchy s cls.type
    | none => st.class_hierarchy

/-- `DexClass* type_class(const DexType*)`: map lookup, `nullptr`
(`none`) when absent. -/
def type_class (st : TypeSystem) (t : CStr) : Option DexClass :=
  (st.type_to_class.find? (fun p => p.1 = t)).map (fun p => p.2)

/-- `const TypeVector& get_children(const DexType*)`: the subclass list at
`t`, or the empty list when `t` is not a key. -/
def get_children (st : TypeSystem) (t : CStr) : List CStr :=
  match st.class_hierarchy.find? (fun p => p.1 = t) with
  | some p => p.2
  | none => []

/-- Registering a whole sequence of classes, in order. -/
def register_all (classes : List DexClass) : TypeSystem :=
  classes.foldl (fun st cls => build_type_system cls st) TypeSystem.empty

/-- `bool check_cast(DexType* type, DexType* base_type)` from DexUtil.cpp.
The two `DexType*` arguments may be null (`none`) — a null superclass is
passed to the recursive call, and `type_class(nullptr)` finds nothing.
The source recursion terminates because the loader guarantees an acyclic
hierarchy; the embedding makes the depth explicit with a fuel argument
(`fuel = 0` answers `false`, which the source never reaches on acyclic
input given enough fuel). -/
def check_cast (st : TypeSystem) : Nat → Option CStr → Option CStr → Bool
  | 0, _, _ => false
  | fuel + 1, type, base_type =>
    if type = base_type then true
    else
      match type with
      | none => false
      | some t =>
        match type_class st t with
        | none => false
        | some cls =>
          check_cast st fuel cls.superClass base_type ||
            cls.interfaces.any (fun intf => check_cast st fuel (some intf) base_type)

/-- The leading symbols of well-formed descriptors. -/
def wellFormedHeads : List Char := ['V', 'Z', 'B', 'S', 'C', 'I', 'J', 'F', 'D', 'L', '[']

/-! ## Concrete sample classes for the witnesses -/

/-- Sample class `LA;` extending `LB;`. -/
def clsA : DexClass :=
  ⟨"LA;".data, some "LB;".data, [], 1, 0, 0, 0⟩

/-- Sample class `LB;` extending `Ljava/lang/Object;`. -/
def clsB : DexClass :=
  ⟨"LB;".data, some "Ljava/lang/Object;".data, [], 1, 0, 0, 0⟩

/-! ## Basic facts about the descriptor functions -/


theorem arrayLevelAux_dropWhile (d : CStr) :
    arrayLevelAux (d.dropWhile (fun c => c = '[')) = 0 := by
  induction d with
  | nil => rfl
  | cons c rest ih =>
    by_cases h : c = '['
    · simpa [List.dropWhile, h] using ih
    · simp [List.dropWhile, h, arrayLevelAux]

theorem get_array_level_of_get_array_type (d e : CStr) (h : get_array_type d = some e) :
    get_array_level e = 0 := by
  unfold get_array_type at h
  split at h
  · cases h
    exact arrayLevelAux_dropWhile d
  · cases h

/-! ## Claim C1 — array level of the stripped element type -/

/-- C1 (counterexample): for the two-dimensional array descriptor `[[I`,
`get_array_type` strips *all* leading markers, so the element type is `I`
with array level `0`, and `0 + 1 = 1 ≠ 2 = get_array_level("[[I")`; the
claimed law `get_array_level(get_array_type(t)) + 1 = get_array_level(t)`
fails. -/
theorem c1_counterexample :
    get_array_type [ '[', '[', 'I'] = some ['I'] ∧
    get_array_level ['I'] + 1 ≠ get_array_level [ '[', '[', 'I'] := by
  decide

/-- C1 (amended): stripping all leading array markers yields an element
type of array level `0`; hence the claimed law
`get_array_level(get_array_type(t)) + 1 = get_array_level(t)` holds
exactly for arrays of nesting depth 1. -/
theorem c1_stripped_element_level (t e : CStr) (h : get_array_type t = some e) :
    get_array_level e = 0 ∧
    (get_array_level t = 1 → get_array_level e + 1 = get_array_level t) := by
  refine ⟨get_array_level_of_get_array_type t e h, fun h1 => ?_⟩
  rw [get_array_level_of_get_array_type t e h, h1]

/-- Witness for C1 (amended) at the one-dimensional array `[I`. -/
theorem c1_stripped_element_level_witness :
    get_array_level ['I'] = 0 ∧
    (get_array_level [ '[', 'I'] = 1 → get_array_level ['I'] + 1 = get_array_level [ '[', 'I']) :=
  c1_stripped_element_level [ '[', 'I'] ['I'] (by decide)

/-! ## Claim C2 — `is_primitive` on the void descriptor -/

/-- C2 (counterexample): on the void descriptor `V`, `is_primitive`
returns `false` (the `'V'` case sits with `'L'` and `'['` in the
`return false` group), contradicting the claim that it returns `true`. -/
theorem c2_counterexample :
    is_primitive ['V'] = some false ∧ is_primitive ['V'] ≠ some true := by
  decide

/-- C2 (amended): `is_primitive` returns `false` on the void descriptor
`V` — void is grouped with the object (`L`) and array (`[`) cases, not
with the eight value-carrying primitives, for which it returns `true`. -/
theorem c2_void_not_primitive :
    is_primitive ['V'] = some false ∧
    is_primitive ['L'] = some false ∧ is_primitive [ '[' ] = some false ∧
    is_primitive ['Z'] = some true ∧ is_primitive ['B'] = some true ∧
    is_primitive ['S'] = some true ∧ is_primitive ['C'] = some true ∧
    is_primitive ['I'] = some true ∧ is_primitive ['J'] = some true ∧
    is_primitive ['F'] = some true ∧ is_primitive ['D'] = some true := by
  decide

/-! ## Claim C9 — totality of classification, fatal on malformed input -/

/-- C9: when the leading symbol of the descriptor is one of
`V Z B S C I J F D L [`, both `is_primitive` and `type_to_datatype`
return exactly one result (`isSome`) without reaching `not_reached()`;
for any other leading symbol both fall through to `not_reached()`
(modelled as `none`) instead of returning a sentinel. -/
theorem c9_classification_total (d : CStr) :
    (headChar d ∈ wellFormedHeads →
      (is_primitive d).isSome ∧ (type_to_datatype d).isSome) ∧
    (headChar d ∉ wellFormedHeads →
      is_primitive d = none ∧ type_to_datatype d = none) := by
  unfold is_primitive type_to_datatype
  generalize headChar d = c
  constructor
  · intro h
    fin_cases h <;> decide
  · intro h
    simp only [wellFormedHeads, List.mem_cons, List.not_mem_nil, or_false] at h
    push_neg at h
    obtain ⟨hV, hZ, hB, hS, hC, hI, hJ, hF, hD, hL, hA⟩ := h
    simp [primSwitch, datatypeSwitch, hV, hZ, hB, hS, hC, hI, hJ, hF, hD, hL, hA]

/-- Witness for C9: the well-formed head `I` classifies, the malformed
head `Q` aborts. -/
theorem c9_classification_total_witness :
    ((is_primitive ['I']).isSome ∧ (type_to_datatype ['I']).isSome) ∧
    (is_primitive ['Q'] = none ∧ type_to_datatype ['Q'] = none) :=
  ⟨(c9_classification_total ['I']).1 (by decide),
   (c9_classification_total ['Q']).2 (by decide)⟩

/-! ## Claims C5 / C10 — the footprint estimator -/

theorem not_suffix_of_incomparable {a b s : CStr} (h : b <:+ s)
    (hab : ¬ a <:+ b) (hba : ¬ b <:+ a) : ¬ a <:+ s := fun ha =>
  (List.suffix_or_suffix_of_suffix ha h).elim hab hba

theorem isSuffixOf_eq_false_of_not {a s : CStr} (h : ¬ a <:+ s) :
    a.isSuffixOf s = false := by
  rw [← Bool.not_eq_true, List.isSuffixOf_iff_suffix]
  exact h

/-- A descriptor ending in `ViewGroup;` matches the third pattern and no
earlier one: the penalty is `1800`. -/
theorem matches_penalty_of_viewgroup (s : CStr) (h : ("ViewGroup;".data : CStr) <:+ s) :
    matches_penalty s = some 1800 := by
  have hvg : ("ViewGroup;".data : CStr).isSuffixOf s = true := by
    rw [List.isSuffixOf_iff_suffix]; exact h
  have hlay : ("Layout;".data : CStr).isSuffixOf s = false :=
    isSuffixOf_eq_false_of_not (not_suffix_of_incomparable h (by decide) (by decide))
  have hview : ("View;".data : CStr).isSuffixOf s = false :=
    isSuffixOf_eq_false_of_not (not_suffix_of_incomparable h (by decide) (by decide))
  unfold matches_penalty compile_regexes
  simp [List.find?, hvg, hlay, hview]

/-- C5: a non-interface class with 0 virtual methods, 2 direct methods, 3
instance fields and a descriptor ending in `ViewGroup;` is estimated at
`1800 + 0*4 + 2*52 + 3*16 = 1952`: the `ViewGroup;` override replaces the
default vtable base of 48 (and the generic `View;` pattern, which cannot
match a `ViewGroup;` suffix, does not mask it). -/
theorem c5_viewgroup_estimate (clazz : DexClass)
    (hifc : clazz.access &&& DEX_ACCESS_INTERFACE = 0)
    (hd : clazz.dmethods = 2) (hv : clazz.vmethods = 0) (hf : clazz.ifields = 3)
    (hsuf : ("ViewGroup;".data : CStr) <:+ clazz.type) :
    estimate_linear_alloc clazz = 1952 := by
  simp only [estimate_linear_alloc, hifc, matches_penalty_of_viewgroup clazz.type hsuf,
    hd, hv, hf, if_true]
  norm_num [kMethodSize, kInstanceFieldSize, kVtableSlotSize]

/-- Witness for C5 at a concrete class. -/
theorem c5_viewgroup_estimate_witness :
    estimate_linear_alloc
      ⟨"Lcom/app/MyViewGroup;".data, some "Ljava/lang/Object;".data, [], 0, 2, 0, 3⟩
      = 1952 :=
  c5_viewgroup_estimate
    ⟨"Lcom/app/MyViewGroup;".data, some "Ljava/lang/Object;".data, [], 0, 2, 0, 3⟩
    (by decide) rfl rfl rfl (by decide)

/-- C10: for an interface (interface access bit set) the whole vtable
block is skipped — no base penalty, no per-slot cost, no pattern match —
leaving `(dmethods + vmethods) * 52 + ifields * 16`. -/
theorem c10_interface_estimate (clazz : DexClass)
    (hifc : clazz.access &&& DEX_ACCESS_INTERFACE ≠ 0) :
    estimate_linear_alloc clazz =
      ((clazz.dmethods : Int) + (clazz.vmethods : Int)) * 52 + (clazz.ifields : Int) * 16 := by
  simp only [estimate_linear_alloc, hifc, if_false, ite_false]
  simp [kMethodSize, kInstanceFieldSize]
  ring

/-- Witness for C10: an interface whose own and superclass descriptors
both end in penalty-pattern suffixes still pays no vtable penalty. -/
theorem c10_interface_estimate_witness :
    estimate_linear_alloc
      ⟨"Lcom/app/MyViewGroup;".data, some "Lcom/app/SomeActivity;".data, [], 512, 2, 1, 3⟩
      = 204 := by
  have h := c10_interface_estimate
    ⟨"Lcom/app/MyViewGroup;".data, some "Lcom/app/SomeActivity;".data, [], 512, 2, 1, 3⟩
    (by decide)
  simpa using h

/-! ## Claims C3 / C4 — the scope manager -/

/-- C3: committing an unmodified built scope is the identity — with
`v = build_class_scope(P)` every class of every partition passes the
`clookup` membership test, so `post_dexen_changes(v, P)` erases nothing
and every partition keeps its classes and their order. -/
theorem c3_scope_roundtrip (P : DexClassesVector) :
    post_dexen_changes (build_class_scope P) P = P := by
  unfold post_dexen_changes build_class_scope
  conv_rhs => rw [← List.map_id P]
  apply List.map_eq_map_iff.mpr
  intro part hpart
  simp only [id]
  apply List.filter_eq_self.mpr
  intro a ha
  simpa using List.mem_flatten.mpr ⟨part, hpart, ha⟩

/-- Committing a scope filtered by a predicate filters every partition by
the same predicate (every partition element is in the flattened scope). -/
theorem post_dexen_changes_filter (P : DexClassesVector) (p : DexClass → Bool) :
    post_dexen_changes ((build_class_scope P).filter p) P
      = P.map (fun part => part.filter p) := by
  unfold post_dexen_changes build_class_scope
  apply List.map_eq_map_iff.mpr
  intro part hpart
  apply List.filter_congr
  intro a ha
  simp only [List.mem_filter, List.mem_flatten]
  have hmem : ∃ l ∈ P, a ∈ l := ⟨part, hpart, ha⟩
  simp [hmem]

theorem forall₂_sublist_map_filter (p : DexClass → Bool) :
    ∀ Q : DexClassesVector,
      List.Forall₂ List.Sublist (Q.map (fun part => part.filter p)) Q
  | [] => List.Forall₂.nil
  | part :: rest =>
    List.Forall₂.cons (List.filter_sublist part) (forall₂_sublist_map_filter p rest)

/-- C4: committing the built scope with class `X` removed erases `X` from
every partition, leaves every other class in place with its partition's
relative order (each resulting partition is exactly the original one with
`X` filtered out), and never adds a class (each resulting partition is a
sublist of the original). -/
theorem c4_scope_filtering (P : DexClassesVector) (X : DexClass)
    (hX : X ∈ build_class_scope P) :
    post_dexen_changes ((build_class_scope P).filter (fun c => c ≠ X)) P
        = P.map (fun part => part.filter (fun c => c ≠ X)) ∧
    (∀ part ∈ post_dexen_changes ((build_class_scope P).filter (fun c => c ≠ X)) P,
        X ∉ part) ∧
    List.Forall₂ List.Sublist
      (post_dexen_changes ((build_class_scope P).filter (fun c => c ≠ X)) P) P := by
  have h1 := post_dexen_changes_filter P (fun c => c ≠ X)
  refine ⟨h1, ?_, ?_⟩
  · intro part hpart hXpart
    rw [h1] at hpart
    obtain ⟨orig, -, rfl⟩ := List.mem_map.mp hpart
    have hmem := List.mem_filter.mp hXpart
    simp at hmem
  · rw [h1]
    exact forall₂_sublist_map_filter (fun c => c ≠ X) P

/-- Witness for C4 on the partitions `[[clsA], [clsB]]` with `clsA`
removed from the built scope. -/
theorem c4_scope_filtering_witness :
    post_dexen_changes ((build_class_scope [[clsA], [clsB]]).filter (fun c => c ≠ clsA))
        [[clsA], [clsB]]
        = ([[clsA], [clsB]] : DexClassesVector).map (fun part => part.filter (fun c => c ≠ clsA)) ∧
    (∀ part ∈ post_dexen_changes
        ((build_class_scope [[clsA], [clsB]]).filter (fun c => c ≠ clsA)) [[clsA], [clsB]],
        clsA ∉ part) ∧
    List.Forall₂ List.Sublist
      (post_dexen_changes ((build_class_scope [[clsA], [clsB]]).filter (fun c => c ≠ clsA))
        [[clsA], [clsB]]) [[clsA], [clsB]] :=
  c4_scope_filtering [[clsA], [clsB]] clsA (by decide)

/-! ## Claim C6 — registering the same class twice -/

/-- C6: registering the same class (with a declared superclass) twice
leaves a single map entry — the duplicate `emplace` is silently ignored,
so `type_class` still yields the single first-registered definition —
while the superclass's subclass list receives the class's handle twice. -/
theorem c6_register_twice (cls : DexClass) (s : CStr) (hsup : cls.superClass = some s) :
    type_class (build_type_system cls (build_type_system cls TypeSystem.empty)) cls.type
        = some cls ∧
    (build_type_system cls (build_type_system cls TypeSystem.empty)).type_to_class
        = [(cls.type, cls)] ∧
    get_children (build_type_system cls (build_type_system cls TypeSystem.empty)) s
        = [cls.type, cls.type] := by
  simp [build_type_system, TypeSystem.empty, emplace, appendChild, type_class,
    get_children, hsup, List.find?]

/-- Witness for C6 at the concrete class `clsA`. -/
theorem c6_register_twice_witness :
    type_class (build_type_system clsA (build_type_system clsA TypeSystem.empty)) clsA.type
        = some clsA ∧
    (build_type_system clsA (build_type_system clsA TypeSystem.empty)).type_to_class
        = [(clsA.type, clsA)] ∧
    get_children (build_type_system clsA (build_type_system clsA TypeSystem.empty))
        ("LB;".data) = [clsA.type, clsA.type] :=
  c6_register_twice clsA ("LB;".data) (by decide)

/-! ## Claim C7 — absent entries are never errors -/

theorem type_class_eq_none_iff (st : TypeSystem) (t : CStr) :
    type_class st t = none ↔ ∀ p ∈ st.type_to_class, p.1 ≠ t := by
  unfold type_class
  rw [Option.map_eq_none', List.find?_eq_none]
  simp

theorem type_class_build_none (c : DexClass) (st : TypeSystem) (t : CStr)
    (h : type_class st t = none) (hne : c.type ≠ t) :
    type_class (build_type_system c st) t = none := by
  rw [type_class_eq_none_iff] at h ⊢
  intro p hp
  simp only [build_type_system] at hp
  unfold emplace at hp
  split at hp
  · exact h p hp
  · rcases List.mem_append.mp hp with h1 | h1
    · exact h p h1
    · simp only [List.mem_singleton] at h1
      rw [h1]
      exact hne

theorem type_class_register_none (t : CStr) :
    ∀ (classes : List DexClass) (st : TypeSystem),
      type_class st t = none → (∀ c ∈ classes, c.type ≠ t) →
      type_class (classes.foldl (fun acc cls => build_type_system cls acc) st) t = none
  | [], _, h, _ => h
  | c :: rest, st, h, hall =>
    type_class_register_none t rest (build_type_system c st)
      (type_class_build_none c st t h (hall c (List.mem_cons_self c rest)))
      (fun c' hc' => hall c' (List.mem_cons_of_mem c hc'))

theorem find?_appendChild_ne (t k x : CStr) (hkt : k ≠ t) :
    ∀ h : List (CStr × List CStr),
      (appendChild h k x).find? (fun p => p.1 = t) = h.find? (fun p => p.1 = t) := by
  intro h
  induction h with
  | nil => simp [appendChild, List.find?, hkt]
  | cons hd rest ih =>
    obtain ⟨k', l⟩ := hd
    by_cases hk : k' = k
    · subst hk
      simp [appendChild, List.find?_cons, hkt]
    · by_cases hkt' : k' = t
      · subst hkt'
        simp [appendChild, hk, List.find?_cons]
      · simp [appendChild, hk, List.find?_cons, hkt', ih]

theorem get_children_build_ne (c : DexClass) (st : TypeSystem) (t : CStr)
    (hne : c.superClass ≠ some t) :
    get_children (build_type_system c st) t = get_children st t := by
  unfold get_children
  simp only [build_type_system]
  cases hsc : c.superClass with
  | none => rfl
  | some s =>
    have hst : s ≠ t := by
      intro he
      exact hne (by rw [hsc, he])
    rw [find?_appendChild_ne t s c.type hst st.class_hierarchy]

theorem get_children_register_none (t : CStr) :
    ∀ (classes : List DexClass) (st : TypeSystem),
      get_children st t = [] → (∀ c ∈ classes, c.superClass ≠ some t) →
      get_children (classes.foldl (fun acc cls => build_type_system cls acc) st) t = []
  | [], _, h, _ => h
  | c :: rest, st, h, hall =>
    get_children_register_none t rest (build_type_system c st)
      (by rw [get_children_build_ne c st t (hall c (List.mem_cons_self c rest))]; exact h)
      (fun c' hc' => hall c' (List.mem_cons_of_mem c hc'))

/-- One unfolding step of `check_cast` for positive fuel. -/
theorem check_cast_succ (st : TypeSystem) (fuel : Nat) (type base_type : Option CStr) :
    check_cast st (fuel + 1) type base_type =
      if type = base_type then true
      else
        match type with
        | none => false
        | some t =>
          match type_class st t with
          | none => false
          | some cls =>
            check_cast st fuel cls.superClass base_type ||
              cls.interfaces.any (fun intf => check_cast st fuel (some intf) base_type) :=
  rfl

/-- C7: over a registration sequence in which the handle `t` never occurs
— no registered class has type `t` and none declares `t` as superclass —
`type_class` answers null, `get_children` answers the empty list, and
`check_cast` on candidate `t` against any distinct target answers false;
none of the three faults. -/
theorem c7_absent_entries (classes : List DexClass) (t : CStr)
    (hnot : ∀ c ∈ classes, c.type ≠ t ∧ c.superClass ≠ some t) :
    type_class (register_all classes) t = none ∧
    get_children (register_all classes) t = [] ∧
    (∀ (base : Option CStr) (fuel : Nat), some t ≠ base →
      check_cast (register_all classes) (fuel + 1) (some t) base = false) := by
  have htc : type_class (register_all classes) t = none :=
    type_class_register_none t classes TypeSystem.empty rfl (fun c hc => (hnot c hc).1)
  refine ⟨htc, ?_, ?_⟩
  · exact get_children_register_none t classes TypeSystem.empty rfl
      (fun c hc => (hnot c hc).2)
  · intro base fuel hne
    rw [check_cast_succ, if_neg hne]
    simp [htc]

/-- Witness for C7: `LC;` was never registered. -/
theorem c7_absent_entries_witness :
    type_class (register_all [clsA, clsB]) ("LC;".data) = none ∧
    get_children (register_all [clsA, clsB]) ("LC;".data) = [] ∧
    check_cast (register_all [clsA, clsB]) 1 (some "LC;".data) (some "LA;".data) = false := by
  obtain ⟨h1, h2, h3⟩ := c7_absent_entries [clsA, clsB] ("LC;".data) (by decide)
  exact ⟨h1, h2, h3 (some "LA;".data) 0 (by decide)⟩

/-! ## Claim C8 — reflexivity, chain transitivity, null-tolerance -/

theorem check_cast_refl (st : TypeSystem) (fuel : Nat) (t : Option CStr) :
    check_cast st (fuel + 1) t t = true := by
  rw [check_cast_succ, if_pos rfl]

theorem check_cast_none_left (st : TypeSystem) (fuel : Nat) (b : CStr) :
    check_cast st (fuel + 1) none (some b) = false := by
  rw [check_cast_succ, if_neg (by simp)]

/-- C8: `check_cast` is reflexive (a handle casts to itself before any
lookup happens); along a registered two-step chain `A <: B <: root` the
query `check_cast(A, root)` succeeds given recursion depth at least 3;
and a null candidate (as arises from a null superclass in the recursion)
yields false rather than a fault. -/
theorem c8_subtype_reflexive_transitive (st : TypeSystem) (A B : DexClass) (root : CStr)
    (fuel : Nat) (hfuel : 3 ≤ fuel)
    (hA : type_class st A.type = some A) (hAsup : A.superClass = some B.type)
    (hB : type_class st B.type = some B) (hBsup : B.superClass = some root) :
    (∀ t : CStr, check_cast st fuel (some t) (some t) = true) ∧
    check_cast st fuel (some A.type) (some root) = true ∧
    (∀ b : CStr, check_cast st fuel none (some b) = false) := by
  obtain ⟨k, rfl⟩ : ∃ k, fuel = k + 1 + 1 + 1 := ⟨fuel - 3, by omega⟩
  refine ⟨fun t => check_cast_refl st _ (some t), ?_, fun b => check_cast_none_left st _ b⟩
  by_cases h1 : A.type = root
  · rw [h1]
    exact check_cast_refl st _ (some root)
  · rw [check_cast_succ, if_neg (by simpa using h1)]
    by_cases h2 : B.type = root
    · simp only [hA, hAsup, h2]
      rw [check_cast_refl st _ (some root)]
      simp
    · simp only [hA, hAsup]
      rw [check_cast_succ, if_neg (by simpa using h2)]
      simp only [hB, hBsup]
      rw [check_cast_refl st _ (some root)]
      simp

/-- Witness for C8 on the registered chain `LA; <: LB; <: Ljava/lang/Object;`. -/
theorem c8_subtype_witness :
    check_cast (register_all [clsA, clsB]) 3 (some "LA;".data) (some "LA;".data) = true ∧
    check_cast (register_all [clsA, clsB]) 3 (some "LA;".data)
        (some "Ljava/lang/Object;".data) = true ∧
    check_cast (register_all [clsA, clsB]) 3 none (some "LA;".data) = false := by
  obtain ⟨h1, h2, h3⟩ := c8_subtype_reflexive_transitive (register_all [clsA, clsB])
    clsA clsB ("Ljava/lang/Object;".data) 3 (by norm_num)
    (by decide) (by decide) (by decide) (by decide)
  exact ⟨h1 ("LA;".data), h2, h3 ("LA;".data)⟩

end DexUtil
